import Mathlib

/-!
Verification of the optimizer adapter layer of `mzparam`
(`src/mzparam/optimization/optimization.py`).

Conventions of the shallow embedding:
* Python floats are embedded as exact rationals (`ℚ`); parameter vectors as
  `List ℚ`; Python `None`-able slots as `Option _`.
* A Python function that can raise is embedded as a function into
  `Except PyError _`; functions that additionally `print` warnings return a
  `List String × Except PyError _` pair (the warnings are printed before the
  exception, if any, propagates).
* Each scipy / climin backend call is embedded as an explicit function
  argument (an oracle): the adapter code under verification only forwards
  options to it and decodes its result, so the theorems quantify over all
  possible backend behaviours.
* Python list indexing (which accepts negative indices counting from the
  end and raises `IndexError` otherwise) is embedded as `pyIndex`.
-/

/-- Errors raised by the embedded Python code. -/
inductive PyError where
  | assertionError : String → PyError
  | indexError : PyError
  | keyError : String → PyError
deriving DecidableEq

/-- Python `list[i]` semantics: a negative index counts from the end of the
list; an index out of `[-len, len)` raises `IndexError` (embedded as `none`). -/
def pyIndex (l : List String) (i : ℤ) : Option String :=
  let j : ℤ := if i < 0 then i + l.length else i
  if 0 ≤ j then l.get? j.toNat else none

/-- Python `int()` on a rational: truncation toward zero. -/
def pyInt (q : ℚ) : ℤ := q.num / (q.den : ℤ)

/-- The `Optimizer` object state: the attributes assigned by
`Optimizer.__init__` and mutated by the `opt` methods. -/
structure Optimizer where
  opt_name : Option String
  x_init : List ℚ
  messages : Bool
  f_opt : Option ℚ
  x_opt : Option (List ℚ)
  funct_eval : Option ℤ
  status : Option String
  max_f_eval : ℤ
  max_iters : ℤ
  bfgs_factor : Option ℚ
  trace : Option (List ℚ)
  time : String
  xtol : Option ℚ
  gtol : Option ℚ
  ftol : Option ℚ
  model : Option Unit
deriving DecidableEq

/-- Embeds `Optimizer.__init__`.  Python signature and defaults:
`(x_init, messages=False, model=None, max_f_eval=1e4, max_iters=1e3,
ftol=None, gtol=None, xtol=None, bfgs_factor=None)`.
Note that the source sets `self.messages = False #messages` (the argument is
commented out) and `self.max_f_eval = int(max_iters)`. -/
def Optimizer.init (x_init : List ℚ) (messages : Bool) (model : Option Unit)
    (max_f_eval : ℚ) (max_iters : ℚ) (ftol : Option ℚ) (gtol : Option ℚ)
    (xtol : Option ℚ) (bfgs_factor : Option ℚ) : Optimizer :=
  { opt_name := none
    x_init := x_init
    messages := false
    f_opt := none
    x_opt := none
    funct_eval := none
    status := none
    max_f_eval := pyInt max_iters
    max_iters := pyInt max_iters
    bfgs_factor := bfgs_factor
    trace := none
    time := "Not available"
    xtol := xtol
    gtol := gtol
    ftol := ftol
    model := model }

/-- The `opt_dict` of translated backend options built by each `opt` method. -/
structure OptDict where
  xtol : Option ℚ
  ftol : Option ℚ
  pgtol : Option ℚ
  factr : Option ℚ
deriving DecidableEq

/-- Embeds `Optimizer.__str__`: renders the summary.  `"%.3f" % None` and
`"%d" % None` raise `TypeError` in Python, so rendering succeeds only when
`f_opt` and `funct_eval` are set (embedded: `none` = raises).  The decimal
formatting itself is abstracted as `toString`. -/
def Optimizer.str (s : Optimizer) : Option String :=
  match s.f_opt, s.funct_eval with
  | some fo, some fe =>
    some ("Optimizer: \t\t\t\t " ++ s.opt_name.getD "None" ++ "\n" ++
          "f(x_opt): \t\t\t\t " ++ toString fo ++ "\n" ++
          "Number of function evaluations: \t " ++ toString fe ++ "\n" ++
          "Optimization status: \t\t\t " ++ s.status.getD "None" ++ "\n" ++
          "Time elapsed: \t\t\t\t " ++ s.time ++ "\n")
  | _, _ => none

/-- The `tnc_rcstrings` table of `opt_tnc.opt`. -/
def tnc_rcstrings : List String :=
  ["Local minimum", "Converged", "XConverged",
   "Maximum number of f evaluations reached",
   "Line search failed", "Function is constant"]

/-- Result tuple of `scipy.optimize.fmin_tnc`: `(x, nfeval, rc)`. -/
structure TncResult where
  x : List ℚ
  nfeval : ℤ
  rc : ℤ

/-- Embeds `opt_tnc.opt`.  `backend` embeds `scipy.optimize.fmin_tnc`, receiving the
callback, `x_init`, `messages`, `maxfun = self.max_f_eval` and the translated
option dict. -/
def opt_tnc_opt (s : Optimizer) (f_fp : Option (List ℚ → ℚ × List ℚ))
    (backend : (List ℚ → ℚ × List ℚ) → List ℚ → Bool → ℤ → OptDict → TncResult) :
    Except PyError Optimizer :=
  match f_fp with
  | none => Except.error (PyError.assertionError "TNC requires f_fp")
  | some ffp =>
    let opt_dict : OptDict := { xtol := s.xtol, ftol := s.ftol, pgtol := s.gtol, factr := none }
    let r := backend ffp s.x_init s.messages s.max_f_eval opt_dict
    let s1 := { s with x_opt := some r.x, f_opt := some (ffp r.x).1,
                       funct_eval := some r.nfeval }
    match pyIndex tnc_rcstrings r.rc with
    | none => Except.error PyError.indexError
    | some st => Except.ok { s1 with status := some st }

/-- The `rcstrings` table of `opt_lbfgsb.opt`. -/
def lbfgsb_rcstrings : List String :=
  ["Converged", "Maximum number of f evaluations reached", "Error"]

/-- Result of `scipy.optimize.fmin_l_bfgs_b`: `(x, f, d)` where the
dictionary `d` carries `funcalls`, `warnflag` and `task`. -/
structure LbfgsbResult where
  x : List ℚ
  f : ℚ
  funcalls : ℤ
  warnflag : ℤ
  task : String

/-- Embeds `opt_lbfgsb.opt`.  `backend` embeds `scipy.optimize.fmin_l_bfgs_b`,
receiving the callback, `x_init`, `iprint`, `maxfun = self.max_iters` and the
translated option dict.  The first component of the result collects the
warning lines printed for unsupported tolerances. -/
def opt_lbfgsb_opt (s : Optimizer) (f_fp : Option (List ℚ → ℚ × List ℚ))
    (backend : (List ℚ → ℚ × List ℚ) → List ℚ → ℤ → ℤ → OptDict → LbfgsbResult) :
    List String × Except PyError Optimizer :=
  match f_fp with
  | none => ([], Except.error (PyError.assertionError "BFGS requires f_fp"))
  | some ffp =>
    let iprint : ℤ := if s.messages then 1 else -1
    let warns :=
      (if s.xtol.isSome then ["WARNING: l-bfgs-b has no xtol arg, so it is ignored"] else []) ++
      (if s.ftol.isSome then ["WARNING: l-bfgs-b has no ftol arg, so it is ignored"] else [])
    let opt_dict : OptDict := { xtol := none, ftol := none, pgtol := s.gtol, factr := s.bfgs_factor }
    let r := backend ffp s.x_init iprint s.max_iters opt_dict
    let s1 := { s with x_opt := some r.x, f_opt := some (ffp r.x).1,
                       funct_eval := some r.funcalls }
    match pyIndex lbfgsb_rcstrings r.warnflag with
    | none => (warns, Except.error PyError.indexError)
    | some st =>
      let st2 := if r.warnflag = 2 then "Error" ++ r.task else st
      (warns, Except.ok { s1 with status := some st2 })

/-- The `statuses` table of `opt_simplex.opt`. -/
def simplex_statuses : List String :=
  ["Converged", "Maximum number of function evaluations made",
   "Maximum number of iterations reached"]

/-- Full-output result of `scipy.optimize.fmin`:
`(xopt, fopt, iter, funcalls, warnflag)`. -/
structure SimplexResult where
  xopt : List ℚ
  fopt : ℚ
  iters : ℤ
  funcalls : ℤ
  warnflag : ℤ

/-- Embeds `opt_simplex.opt`.  There is no gradient precondition; `f` is handed to
the backend as is.  `backend` embeds `scipy.optimize.fmin`, receiving `f`,
`x_init`, `disp = messages`, `maxfun = self.max_f_eval` and the translated
option dict. -/
def opt_simplex_opt (s : Optimizer) (f : Option (List ℚ → ℚ))
    (backend : Option (List ℚ → ℚ) → List ℚ → Bool → ℤ → OptDict → SimplexResult) :
    List String × Except PyError Optimizer :=
  let warns := if s.gtol.isSome then ["WARNING: simplex has no gtol arg, so it is ignored"] else []
  let opt_dict : OptDict := { xtol := s.xtol, ftol := s.ftol, pgtol := none, factr := none }
  let r := backend f s.x_init s.messages s.max_f_eval opt_dict
  let s1 := { s with x_opt := some r.xopt, f_opt := some r.fopt,
                     funct_eval := some r.funcalls, trace := none }
  match pyIndex simplex_statuses r.warnflag with
  | none => (warns, Except.error PyError.indexError)
  | some st => (warns, Except.ok { s1 with status := some st })

/-- The type of the SCG core routine as called by `opt_SCG.opt`:
`SCG(f, fp, x0, maxiters, max_f_eval, xtol, ftol, gtol)` returning
`(x_opt, trace, funct_eval, status)`. -/
def ScgFun : Type :=
  (List ℚ → ℚ) → (List ℚ → List ℚ) → List ℚ → ℕ → ℕ →
  Option ℚ → Option ℚ → Option ℚ → List ℚ × List ℚ × ℕ × String

/-- Embeds `opt_SCG.opt`.  Asserts `f` and `fp` are present before the core SCG
routine (`scgFun`) is invoked; `self.f_opt = self.trace[-1]` is the Python
negative index, raising on an empty trace. -/
def opt_SCG_opt (s : Optimizer) (f : Option (List ℚ → ℚ))
    (fp : Option (List ℚ → List ℚ)) (scgFun : ScgFun) : Except PyError Optimizer :=
  match f with
  | none => Except.error (PyError.assertionError "assert not f is None")
  | some fv =>
    match fp with
    | none => Except.error (PyError.assertionError "assert not fp is None")
    | some fpv =>
      let r := scgFun fv fpv s.x_init s.max_iters.toNat s.max_f_eval.toNat s.xtol s.ftol s.gtol
      match r.2.1.getLast? with
      | none => Except.error PyError.indexError
      | some fLast =>
        Except.ok { s with x_opt := some r.1, trace := some r.2.1, f_opt := some fLast,
                           funct_eval := some (r.2.2.1 : ℤ), status := some r.2.2.2 }

/-- Embeds `Opt_Adadelta.opt`.  The climin backend is an external unbounded
iterator; the loop breaks at the first `info` with `n_iter >= max_iters`,
at which point only `x_opt` (set to `opt.wrt`, embedded as the oracle value
`wrt`) and `status` are assigned. -/
def Opt_Adadelta_opt (s : Optimizer) (fp : Option (List ℚ → List ℚ)) (wrt : List ℚ) :
    Except PyError Optimizer :=
  match fp with
  | none => Except.error (PyError.assertionError "assert not fp is None")
  | some _ =>
    Except.ok { s with x_opt := some wrt,
                       status := some "maximum number of function evaluations exceeded " }

/-- The adapter variants held in the registry. -/
inductive OptKind where
  | opt_tnc
  | opt_simplex
  | opt_lbfgsb
  | opt_SCG
  | Opt_Adadelta
deriving DecidableEq

/-- Python `str.lower()` (per-character lowering). -/
def strLower (s : String) : String := String.mk (s.toList.map Char.toLower)

/-- Python `haystack.find(needle) != -1`: substring containment. -/
def pyFindContains (haystack needle : String) : Bool :=
  (List.range (haystack.toList.length + 1)).any
    (fun i => needle.toList.isPrefixOf (haystack.toList.drop i))

/-- The `optimizers` dict of `get_optimizer`, in insertion order. -/
def optimizers : List (String × OptKind) :=
  [("fmin_tnc", OptKind.opt_tnc),
   ("simplex", OptKind.opt_simplex),
   ("lbfgsb", OptKind.opt_lbfgsb),
   ("scg", OptKind.opt_SCG),
   ("adadelta", OptKind.Opt_Adadelta)]

/-- Embeds `get_optimizer`: return the variant of the first registered key whose
lowercased text contains the lowercased query; raise `KeyError` otherwise. -/
def get_optimizer (f_min : String) : Except PyError OptKind :=
  match optimizers.find? (fun kv => pyFindContains (strLower kv.1) (strLower f_min)) with
  | some kv => Except.ok kv.2
  | none => Except.error (PyError.keyError ("No optimizer was found matching the name: " ++ f_min))

/-- Dot product of two parameter vectors. -/
def vdot (a b : List ℚ) : ℚ := (List.zipWith (fun x y => x * y) a b).sum

/-- Pointwise vector sum. -/
def vadd (a b : List ℚ) : List ℚ := List.zipWith (fun x y => x + y) a b

/-- Pointwise vector difference. -/
def vsub (a b : List ℚ) : List ℚ := List.zipWith (fun x y => x - y) a b

/-- Scalar multiple of a vector. -/
def vsmul (c : ℚ) (a : List ℚ) : List ℚ := a.map (fun x => c * x)

/-- Pointwise negation. -/
def vneg (a : List ℚ) : List ℚ := a.map (fun x => -x)

/-- Modelled from the spec: the loop state of the SCG core (the repository
imports it from `mzparam/optimization/scg.py`, which is not among the
available sources).  Fields follow spec section 4.1: current point `x`,
current objective value `f0`, current gradient `g`, search direction `d`,
the regularization scalars `lam` (lambda, initially 1) and `lamBar`
(lambda_bar, initially 0), the stored finite-difference curvature estimate
`kappaRaw` (reused after a rejected step), the `success` flag, the count of
successful steps since the last direction reset, the per-accepted-step
objective trace, the running function-evaluation count, and the termination
status (`none` while running). -/
structure SCGState where
  x : List ℚ
  f0 : ℚ
  g : List ℚ
  d : List ℚ
  lam : ℚ
  lamBar : ℚ
  kappaRaw : ℚ
  success : Bool
  nsuccess : ℕ
  trace : List ℚ
  nevals : ℕ
  status : Option String

/-- What a single SCG iteration did: a division-guard restart, a halt on a
convergence criterion, an accepted trial step, or a rejected trial step. -/
inductive StepTag where
  | restart
  | halted
  | accepted
  | rejected
deriving DecidableEq

/-- Modelled from the spec: the convergence tests of spec 4.1 step 2f, each
active only when its tolerance is supplied.  Norm comparisons for the `xtol`
and `gtol` criteria are done on squares (`|alpha * d| < xtol` becomes
`alpha^2 * (d . d) < xtol^2`), which is equivalent for the non-negative
tolerances of `OptimizationConfig` and keeps the model in exact rational
arithmetic. -/
def scgTolHit (xtol ftol gtol : Option ℚ) (alpha dd f0 fNew : ℚ) (gNew : List ℚ) : Bool :=
  (match xtol with
   | some t => decide (alpha * alpha * dd < t * t)
   | none => false) ||
  (match ftol with
   | some t => decide (|f0 - fNew| < t)
   | none => false) ||
  (match gtol with
   | some t => decide (vdot gNew gNew < t * t)
   | none => false)

/-- Modelled from the spec: the committed state after an accepted trial step
(spec 4.1 step 2d): move to `xNew`, record the new objective value in the
trace, evaluate the new gradient, reset the direction to `-gNew` every
`n = dim x` successful steps and otherwise apply the Polak-Ribiere style
conjugate update, decrease `lambda` when `Delta >= 0.75`, and run the
convergence tests of step 2f. -/
def scgAccept (xtol ftol gtol : Option ℚ) (st : SCGState)
    (dd kraw lamBar1 lam1 mu alpha : ℚ) (xNew : List ℚ) (fNew : ℚ)
    (gNew : List ℚ) (nevals1 : ℕ) (delta : ℚ) : SCGState :=
  { x := xNew, f0 := fNew, g := gNew,
    d := if st.x.length ≤ st.nsuccess + 1 then vneg gNew
         else vsub (vsmul (vdot st.g (vsub st.g gNew) / mu) st.d) gNew,
    lam := if (3 : ℚ) / 4 ≤ delta then lam1 / 4 else lam1,
    lamBar := lamBar1, kappaRaw := kraw, success := true,
    nsuccess := if st.x.length ≤ st.nsuccess + 1 then 0 else st.nsuccess + 1,
    trace := st.trace ++ [fNew], nevals := nevals1 + 2,
    status := if scgTolHit xtol ftol gtol alpha dd st.f0 fNew gNew then some "Converged"
              else st.status }

/-- Modelled from the spec: trial step and comparison-ratio test (spec 4.1
steps 2c-2e).  `alpha = -mu / kappa`, `Delta = 2 (f0 - fNew) kappa / mu^2`;
`Delta >= 0` commits the step, `Delta < 0` leaves `x` unchanged and
increases `lambda`. -/
def scgTrial (f : List ℚ → ℚ) (fp : List ℚ → List ℚ) (xtol ftol gtol : Option ℚ)
    (st : SCGState) (dd kraw lamBar1 kappa lam1 mu : ℚ) (nevals1 : ℕ) :
    SCGState × StepTag :=
  if 0 ≤ 2 * (st.f0 - f (vadd st.x (vsmul (-mu / kappa) st.d))) * kappa / (mu * mu) then
    (scgAccept xtol ftol gtol st dd kraw lamBar1 lam1 mu (-mu / kappa)
       (vadd st.x (vsmul (-mu / kappa) st.d))
       (f (vadd st.x (vsmul (-mu / kappa) st.d)))
       (fp (vadd st.x (vsmul (-mu / kappa) st.d))) nevals1
       (2 * (st.f0 - f (vadd st.x (vsmul (-mu / kappa) st.d))) * kappa / (mu * mu)),
     StepTag.accepted)
  else
    ({ st with lam := 4 * lam1, lamBar := lamBar1, kappaRaw := kraw,
               success := false, nevals := nevals1 + 1 },
     StepTag.rejected)

/-- Modelled from the spec: regularization and orthogonality guard (spec 4.1
step 2b plus the numeric policy).  When `kraw <= 0` the scalars become
`lambda_bar = 2 (lambda - kraw / |d|^2)`, `kappa = kraw + lambda_bar |d|^2`,
`lambda = lambda_bar`; when `d . g = 0` the step halts as converged. -/
def scgInner (f : List ℚ → ℚ) (fp : List ℚ → List ℚ) (xtol ftol gtol : Option ℚ)
    (st : SCGState) (dd kraw : ℚ) (nevals1 : ℕ) : SCGState × StepTag :=
  if vdot st.d st.g = 0 then
    ({ st with status := some "Converged", kappaRaw := kraw, nevals := nevals1 },
     StepTag.halted)
  else
    scgTrial f fp xtol ftol gtol st dd kraw
      (if kraw ≤ 0 then 2 * (st.lam - kraw / dd) else st.lamBar)
      (if kraw ≤ 0 then kraw + 2 * (st.lam - kraw / dd) * dd else kraw)
      (if kraw ≤ 0 then 2 * (st.lam - kraw / dd) else st.lam)
      (vdot st.d st.g) nevals1

/-- Modelled from the spec: the `kappa` underflow guard (numeric policy):
a vanishing curvature estimate causes an immediate restart with `d = -g`. -/
def scgStepK (f : List ℚ → ℚ) (fp : List ℚ → List ℚ) (xtol ftol gtol : Option ℚ)
    (st : SCGState) (dd kraw : ℚ) (nevals1 : ℕ) : SCGState × StepTag :=
  if kraw = 0 then
    ({ st with d := vneg st.g, success := true, kappaRaw := kraw, nevals := nevals1 },
     StepTag.restart)
  else scgInner f fp xtol ftol gtol st dd kraw nevals1

/-- Modelled from the spec: one iteration of the SCG loop (spec 4.1 step 2).
When the previous step succeeded, the curvature `kappa` is re-estimated by a
finite-difference of gradients at `x + sigma * d` (one extra gradient
evaluation); after a rejection the stored estimate is reused.  The spec sets
`sigma = sigma0 / |d|`; the norm `|d|` is a real square root, which exact
rational arithmetic cannot express, so the value of `sigma` is taken as a
parameter and every theorem below holds for all choices of it (in
particular for `sigma0 / |d|`).  A vanishing `|d|^2` causes an immediate
restart with `d = -g` (numeric policy). -/
def scgStep (f : List ℚ → ℚ) (fp : List ℚ → List ℚ) (sigma : ℚ)
    (xtol ftol gtol : Option ℚ) (st : SCGState) : SCGState × StepTag :=
  if vdot st.d st.d = 0 then
    ({ st with d := vneg st.g, success := true }, StepTag.restart)
  else
    scgStepK f fp xtol ftol gtol st (vdot st.d st.d)
      (if st.success then
         vdot st.d (vsub (fp (vadd st.x (vsmul sigma st.d))) st.g) / sigma
       else st.kappaRaw)
      (if st.success then st.nevals + 1 else st.nevals)

/-- Modelled from the spec: the SCG outer loop, driven for at most
`maxiters` iterations (the fuel); `sigmas` supplies the per-iteration
`sigma` value (see `scgStep`).  After each iteration the running evaluation
count is checked against `max_f_eval`. -/
def scgRun (f : List ℚ → ℚ) (fp : List ℚ → List ℚ) (sigmas : ℕ → ℚ)
    (xtol ftol gtol : Option ℚ) (maxFeval : ℕ) :
    ℕ → ℕ → SCGState → SCGState
  | 0, _, st =>
    if st.status.isSome then st else { st with status := some "MaxIterationsReached" }
  | fuel + 1, iter, st =>
    if st.status.isSome then st
    else
      let st1 := (scgStep f fp (sigmas iter) xtol ftol gtol st).1
      let st2 :=
        if st1.status = none ∧ maxFeval < st1.nevals then
          { st1 with status := some "MaxFunctionEvaluationsReached" }
        else st1
      scgRun f fp sigmas xtol ftol gtol maxFeval fuel (iter + 1) st2

/-- Modelled from the spec: the SCG core entry point (`scg_minimize`),
returning `(x_opt, trace, funct_eval, status)`.  Initialization per spec
4.1 step 1: two evaluations for `f0` and `g0`, direction `-g0`, `lambda = 1`,
`lambda_bar = 0`, `success = true`, and the trace holding the initial value. -/
def SCG (f : List ℚ → ℚ) (fp : List ℚ → List ℚ) (sigmas : ℕ → ℚ) (x0 : List ℚ)
    (maxiters maxFeval : ℕ) (xtol ftol gtol : Option ℚ) :
    List ℚ × List ℚ × ℕ × String :=
  let f0 := f x0
  let g0 := fp x0
  let st0 : SCGState :=
    { x := x0, f0 := f0, g := g0, d := vneg g0, lam := 1, lamBar := 0, kappaRaw := 0,
      success := true, nsuccess := 0, trace := [f0], nevals := 2, status := none }
  let stF := scgRun f fp sigmas xtol ftol gtol maxFeval maxiters 0 st0
  (stF.x, stF.trace, stF.nevals, stF.status.getD "MaxIterationsReached")

/-- Invariant carried by every reachable SCG state: positive regularization
scalar, and a non-empty, non-increasing trace whose last entry is the
current objective value. -/
def SCGInv (st : SCGState) : Prop :=
  0 < st.lam ∧ st.trace ≠ [] ∧ st.trace.getLast? = some st.f0 ∧
  List.Chain' (fun a b => b ≤ a) st.trace

/-- A concrete adapter state used to instantiate theorems with hypotheses. -/
def sampleOpt : Optimizer := Optimizer.init [0] false none 10000 1000 none none none none

/-- A concrete combined objective/gradient callback. -/
def sampleFfp : List ℚ → ℚ × List ℚ := fun xs => (vdot xs xs, vsmul 2 xs)

/-- A concrete objective (a sum of squares) for SCG instantiations. -/
def sampleF : List ℚ → ℚ := fun xs => vdot xs xs

/-- The gradient of `sampleF`. -/
def sampleFp : List ℚ → List ℚ := fun xs => vsmul 2 xs

/-- A backend whose fixed return code 1 is in range for every table. -/
def sampleTncBackend :
    (List ℚ → ℚ × List ℚ) → List ℚ → Bool → ℤ → OptDict → TncResult :=
  fun _ _ _ _ _ => { x := [3], nfeval := 7, rc := 1 }

/-- A TNC backend returning the (negative) return code -1. -/
def tncNegBackend :
    (List ℚ → ℚ × List ℚ) → List ℚ → Bool → ℤ → OptDict → TncResult :=
  fun _ _ _ _ _ => { x := [0], nfeval := 1, rc := -1 }

/-- A TNC backend returning the out-of-range return code 6. -/
def tncOutBackend :
    (List ℚ → ℚ × List ℚ) → List ℚ → Bool → ℤ → OptDict → TncResult :=
  fun _ _ _ _ _ => { x := [0], nfeval := 1, rc := 6 }

/-- An L-BFGS-B backend with in-range `warnflag` 0. -/
def sampleLbfgsbBackend :
    (List ℚ → ℚ × List ℚ) → List ℚ → ℤ → ℤ → OptDict → LbfgsbResult :=
  fun _ _ _ _ _ => { x := [2], f := 9, funcalls := 5, warnflag := 0, task := "" }

/-- An L-BFGS-B backend with out-of-range `warnflag` 3. -/
def lbfgsbOutBackend :
    (List ℚ → ℚ × List ℚ) → List ℚ → ℤ → ℤ → OptDict → LbfgsbResult :=
  fun _ _ _ _ _ => { x := [2], f := 9, funcalls := 5, warnflag := 3, task := "" }

/-- A simplex backend with out-of-range `warnflag` -4. -/
def simplexOutBackend :
    Option (List ℚ → ℚ) → List ℚ → Bool → ℤ → OptDict → SimplexResult :=
  fun _ _ _ _ _ => { xopt := [1], fopt := 2, iters := 3, funcalls := 4, warnflag := -4 }

/-- A concrete SCG state from which the next step is accepted (with
`sigma = 1`, for the callbacks of `sampleFfp`). -/
def sampleAccState : SCGState :=
  { x := [1], f0 := 1, g := [2], d := [-2], lam := 1, lamBar := 0, kappaRaw := 0,
    success := true, nsuccess := 0, trace := [1], nevals := 2, status := none }

/-- Objective for the rejected-step example: a constant above the stored
objective value, forcing a negative comparison ratio. -/
def sampleRejF : List ℚ → ℚ := fun _ => 5

/-- Gradient callback for the rejected-step example. -/
def sampleRejFp : List ℚ → List ℚ := fun xs => xs

/-- A concrete SCG state from which the next step is rejected (with
`sigma = 1`, for `sampleRejF` / `sampleRejFp`). -/
def sampleRejState : SCGState :=
  { x := [1], f0 := 0, g := [2], d := [-2], lam := 1, lamBar := 0, kappaRaw := 0,
    success := true, nsuccess := 0, trace := [0], nevals := 2, status := none }

section Lemmas

/-- The function `pyIndex` raises exactly for indices outside `[-len, len)`. -/
lemma pyIndex_eq_none_of_out_of_range (l : List String) (i : ℤ)
    (h : i < -(l.length : ℤ) ∨ (l.length : ℤ) ≤ i) : pyIndex l i = none := by
  unfold pyIndex
  rcases h with h | h
  · have hi : i < 0 := by omega
    simp only [hi, if_true]
    have : ¬ (0 ≤ i + (l.length : ℤ)) := by omega
    simp [this]
  · have hi : ¬ i < 0 := by omega
    simp only [hi, if_false]
    have h0 : 0 ≤ i := by omega
    simp only [h0, if_true]
    exact List.get?_eq_none.mpr (by omega)

/-- First-match characterization of `List.find?` over an append. -/
lemma find?_append_first {α : Type} (p : α → Bool) (l₁ l₂ : List α) (x : α)
    (hx : p x = true) (h₁ : ∀ y ∈ l₁, p y = false) :
    List.find? p (l₁ ++ x :: l₂) = some x := by
  induction l₁ with
  | nil => simp [List.find?, hx]
  | cons a t ih =>
    have ha : p a = false := h₁ a (by simp)
    simp only [List.cons_append, List.find?, ha]
    exact ih (fun y hy => h₁ y (by simp [hy]))

/-- A dot product of a vector with itself is a sum of squares. -/
lemma vdot_self_nonneg (a : List ℚ) : 0 ≤ vdot a a := by
  unfold vdot
  induction a with
  | nil => simp
  | cons x t ih =>
    simp only [List.zipWith, List.sum_cons]
    exact add_nonneg (mul_self_nonneg x) ih

/-- A non-negative comparison ratio with positive curvature forces a
non-increasing objective value. -/
lemma accept_le (f0 fN kappa mu : ℚ) (hkpos : 0 < kappa) (hmu : mu ≠ 0)
    (h : 0 ≤ 2 * (f0 - fN) * kappa / (mu * mu)) : fN ≤ f0 := by
  have hmu2 : 0 < mu * mu := mul_self_pos.mpr hmu
  rw [le_div_iff₀ hmu2, zero_mul] at h
  nlinarith

/-- The regularized curvature of spec 4.1 step 2b is positive when
`lambda > 0`, `|d|^2 > 0` and the raw estimate is negative. -/
lemma kappa_reg_pos (lam kraw dd : ℚ) (hlam : 0 < lam) (hdd : 0 < dd) (hklt : kraw < 0) :
    0 < kraw + 2 * (lam - kraw / dd) * dd := by
  have hc : kraw + 2 * (lam - kraw / dd) * dd = 2 * (lam * dd) - kraw := by
    field_simp
    ring
  rw [hc]
  nlinarith [mul_pos hlam hdd]

/-- The regularization scalar `lambda_bar` of spec 4.1 step 2b stays
positive. -/
lemma lamBar_pos (lam kraw dd : ℚ) (hlam : 0 < lam) (hdd : 0 < dd) (hklt : kraw < 0) :
    0 < 2 * (lam - kraw / dd) := by
  have h2 : kraw / dd < 0 := div_neg_of_neg_of_pos hklt hdd
  linarith

/-- An accepted trial step does not increase the objective value. -/
lemma scgTrial_accepted_le (f : List ℚ → ℚ) (fp : List ℚ → List ℚ)
    (xt ft gt : Option ℚ) (st : SCGState) (dd kraw lamBar1 kappa lam1 mu : ℚ)
    (nevals1 : ℕ) (hkpos : 0 < kappa) (hmu : mu ≠ 0)
    (h : (scgTrial f fp xt ft gt st dd kraw lamBar1 kappa lam1 mu nevals1).2 =
      StepTag.accepted) :
    ((scgTrial f fp xt ft gt st dd kraw lamBar1 kappa lam1 mu nevals1).1).f0 ≤ st.f0 := by
  unfold scgTrial at h ⊢
  split_ifs at h ⊢ with hdel
  exact accept_le _ _ _ _ hkpos hmu hdel

/-- A rejected trial step leaves the point unchanged. -/
lemma scgTrial_rejected_x (f : List ℚ → ℚ) (fp : List ℚ → List ℚ)
    (xt ft gt : Option ℚ) (st : SCGState) (dd kraw lamBar1 kappa lam1 mu : ℚ)
    (nevals1 : ℕ)
    (h : (scgTrial f fp xt ft gt st dd kraw lamBar1 kappa lam1 mu nevals1).2 =
      StepTag.rejected) :
    ((scgTrial f fp xt ft gt st dd kraw lamBar1 kappa lam1 mu nevals1).1).x = st.x := by
  unfold scgTrial at h ⊢
  split_ifs at h ⊢ with hdel
  rfl

/-- Acceptance after regularization does not increase the objective value. -/
lemma scgInner_accepted_le (f : List ℚ → ℚ) (fp : List ℚ → List ℚ)
    (xt ft gt : Option ℚ) (st : SCGState) (dd kraw : ℚ) (nevals1 : ℕ)
    (hlam : 0 < st.lam) (hdd : 0 < dd) (hkne : kraw ≠ 0)
    (h : (scgInner f fp xt ft gt st dd kraw nevals1).2 = StepTag.accepted) :
    ((scgInner f fp xt ft gt st dd kraw nevals1).1).f0 ≤ st.f0 := by
  unfold scgInner at h ⊢
  split_ifs at h ⊢ with hmu hk
  · exact scgTrial_accepted_le _ _ _ _ _ _ _ _ _ _ _ _ _
      (kappa_reg_pos st.lam kraw dd hlam hdd (lt_of_le_of_ne hk hkne)) hmu h
  · exact scgTrial_accepted_le _ _ _ _ _ _ _ _ _ _ _ _ _ (not_le.mp hk) hmu h

/-- Rejection after regularization leaves the point unchanged. -/
lemma scgInner_rejected_x (f : List ℚ → ℚ) (fp : List ℚ → List ℚ)
    (xt ft gt : Option ℚ) (st : SCGState) (dd kraw : ℚ) (nevals1 : ℕ)
    (h : (scgInner f fp xt ft gt st dd kraw nevals1).2 = StepTag.rejected) :
    ((scgInner f fp xt ft gt st dd kraw nevals1).1).x = st.x := by
  unfold scgInner at h ⊢
  split_ifs at h ⊢ with hmu hk
  · exact scgTrial_rejected_x _ _ _ _ _ _ _ _ _ _ _ _ _ h
  · exact scgTrial_rejected_x _ _ _ _ _ _ _ _ _ _ _ _ _ h

/-- An accepted SCG iteration does not increase the objective value, given a
positive regularization scalar. -/
lemma scgStep_accepted_le (f : List ℚ → ℚ) (fp : List ℚ → List ℚ) (sigma : ℚ)
    (xt ft gt : Option ℚ) (st : SCGState) (hlam : 0 < st.lam)
    (h : (scgStep f fp sigma xt ft gt st).2 = StepTag.accepted) :
    ((scgStep f fp sigma xt ft gt st).1).f0 ≤ st.f0 := by
  unfold scgStep scgStepK at h ⊢
  split_ifs at h ⊢ with h1 h2 h3 h4
  · exact scgInner_accepted_le _ _ _ _ _ _ _ _ _ hlam
      (lt_of_le_of_ne (vdot_self_nonneg st.d) (Ne.symm h1)) h3 h
  · exact scgInner_accepted_le _ _ _ _ _ _ _ _ _ hlam
      (lt_of_le_of_ne (vdot_self_nonneg st.d) (Ne.symm h1)) h4 h

/-- A rejected SCG iteration leaves the point unchanged. -/
lemma scgStep_rejected_x (f : List ℚ → ℚ) (fp : List ℚ → List ℚ) (sigma : ℚ)
    (xt ft gt : Option ℚ) (st : SCGState)
    (h : (scgStep f fp sigma xt ft gt st).2 = StepTag.rejected) :
    ((scgStep f fp sigma xt ft gt st).1).x = st.x := by
  unfold scgStep scgStepK at h ⊢
  split_ifs at h ⊢ with h1 h2 h3 h4
  · exact scgInner_rejected_x _ _ _ _ _ _ _ _ _ h
  · exact scgInner_rejected_x _ _ _ _ _ _ _ _ _ h

/-- After an accepted trial step the stored objective value is the objective
evaluated at the stored point. -/
lemma scgTrial_accepted_fx (f : List ℚ → ℚ) (fp : List ℚ → List ℚ)
    (xt ft gt : Option ℚ) (st : SCGState) (dd kraw lamBar1 kappa lam1 mu : ℚ)
    (nevals1 : ℕ)
    (h : (scgTrial f fp xt ft gt st dd kraw lamBar1 kappa lam1 mu nevals1).2 =
      StepTag.accepted) :
    ((scgTrial f fp xt ft gt st dd kraw lamBar1 kappa lam1 mu nevals1).1).f0 =
      f (((scgTrial f fp xt ft gt st dd kraw lamBar1 kappa lam1 mu nevals1).1).x) := by
  unfold scgTrial at h ⊢
  split_ifs at h ⊢ with hdel
  rfl

/-- Lemma `scgTrial_accepted_fx`, lifted over the regularization step. -/
lemma scgInner_accepted_fx (f : List ℚ → ℚ) (fp : List ℚ → List ℚ)
    (xt ft gt : Option ℚ) (st : SCGState) (dd kraw : ℚ) (nevals1 : ℕ)
    (h : (scgInner f fp xt ft gt st dd kraw nevals1).2 = StepTag.accepted) :
    ((scgInner f fp xt ft gt st dd kraw nevals1).1).f0 =
      f (((scgInner f fp xt ft gt st dd kraw nevals1).1).x) := by
  unfold scgInner at h ⊢
  split_ifs at h ⊢ with hmu hk
  · exact scgTrial_accepted_fx _ _ _ _ _ _ _ _ _ _ _ _ _ h
  · exact scgTrial_accepted_fx _ _ _ _ _ _ _ _ _ _ _ _ _ h

/-- Lemma `scgTrial_accepted_fx`, lifted to a whole SCG iteration. -/
lemma scgStep_accepted_fx (f : List ℚ → ℚ) (fp : List ℚ → List ℚ) (sigma : ℚ)
    (xt ft gt : Option ℚ) (st : SCGState)
    (h : (scgStep f fp sigma xt ft gt st).2 = StepTag.accepted) :
    ((scgStep f fp sigma xt ft gt st).1).f0 = f (((scgStep f fp sigma xt ft gt st).1).x) := by
  unfold scgStep scgStepK at h ⊢
  split_ifs at h ⊢ with h1 h2 h3 h4
  · exact scgInner_accepted_fx _ _ _ _ _ _ _ _ _ h
  · exact scgInner_accepted_fx _ _ _ _ _ _ _ _ _ h

/-- The committed state of an accepted step satisfies the SCG invariant. -/
lemma scgAccept_inv (xt ft gt : Option ℚ) (st : SCGState)
    (dd kraw lamBar1 lam1 mu alpha : ℚ) (xNew : List ℚ) (fNew : ℚ)
    (gNew : List ℚ) (nevals1 : ℕ) (delta : ℚ)
    (hinv : SCGInv st) (hlam1 : 0 < lam1) (hle : fNew ≤ st.f0) :
    SCGInv (scgAccept xt ft gt st dd kraw lamBar1 lam1 mu alpha xNew fNew gNew nevals1 delta) := by
  obtain ⟨hl, hne, hlast, hchain⟩ := hinv
  refine ⟨?_, ?_, ?_, ?_⟩
  · dsimp only [scgAccept]
    split_ifs with h1
    · exact div_pos hlam1 (by norm_num)
    · exact hlam1
  · simp [scgAccept]
  · dsimp only [scgAccept]
    exact List.getLast?_concat _
  · dsimp only [scgAccept]
    rw [List.chain'_append]
    refine ⟨hchain, List.chain'_singleton _, ?_⟩
    intro a ha b hb
    simp only [Option.mem_def] at ha hb
    have ha2 : a = st.f0 := Option.some.inj ((ha.symm.trans hlast))
    have hb2 : b = fNew := (Option.some.inj hb).symm
    rw [ha2, hb2]
    exact hle

/-- The trial step preserves the SCG invariant. -/
lemma scgTrial_inv (f : List ℚ → ℚ) (fp : List ℚ → List ℚ) (xt ft gt : Option ℚ)
    (st : SCGState) (dd kraw lamBar1 kappa lam1 mu : ℚ) (nevals1 : ℕ)
    (hinv : SCGInv st) (hlam1 : 0 < lam1) (hkpos : 0 < kappa) (hmu : mu ≠ 0) :
    SCGInv ((scgTrial f fp xt ft gt st dd kraw lamBar1 kappa lam1 mu nevals1).1) := by
  unfold scgTrial
  split_ifs with hdel
  · exact scgAccept_inv _ _ _ _ _ _ _ _ _ _ _ _ _ _ _ hinv hlam1
      (accept_le _ _ _ _ hkpos hmu hdel)
  · exact ⟨by dsimp only; linarith, hinv.2.1, hinv.2.2.1, hinv.2.2.2⟩

/-- The regularization step preserves the SCG invariant. -/
lemma scgInner_inv (f : List ℚ → ℚ) (fp : List ℚ → List ℚ) (xt ft gt : Option ℚ)
    (st : SCGState) (dd kraw : ℚ) (nevals1 : ℕ)
    (hinv : SCGInv st) (hdd : 0 < dd) (hkne : kraw ≠ 0) :
    SCGInv ((scgInner f fp xt ft gt st dd kraw nevals1).1) := by
  unfold scgInner
  split_ifs with hmu hk
  · exact ⟨hinv.1, hinv.2.1, hinv.2.2.1, hinv.2.2.2⟩
  · exact scgTrial_inv _ _ _ _ _ _ _ _ _ _ _ _ _ hinv
      (lamBar_pos st.lam kraw dd hinv.1 hdd (lt_of_le_of_ne hk hkne))
      (kappa_reg_pos st.lam kraw dd hinv.1 hdd (lt_of_le_of_ne hk hkne)) hmu
  · exact scgTrial_inv _ _ _ _ _ _ _ _ _ _ _ _ _ hinv hinv.1 (not_le.mp hk) hmu

/-- A whole SCG iteration preserves the SCG invariant. -/
lemma scgStep_inv (f : List ℚ → ℚ) (fp : List ℚ → List ℚ) (sigma : ℚ)
    (xt ft gt : Option ℚ) (st : SCGState) (hinv : SCGInv st) :
    SCGInv ((scgStep f fp sigma xt ft gt st).1) := by
  unfold scgStep scgStepK
  split_ifs with h1 h2 h3 h4
  · exact ⟨hinv.1, hinv.2.1, hinv.2.2.1, hinv.2.2.2⟩
  · exact ⟨hinv.1, hinv.2.1, hinv.2.2.1, hinv.2.2.2⟩
  · exact scgInner_inv _ _ _ _ _ _ _ _ _ hinv
      (lt_of_le_of_ne (vdot_self_nonneg st.d) (Ne.symm h1)) h3
  · exact ⟨hinv.1, hinv.2.1, hinv.2.2.1, hinv.2.2.2⟩
  · exact scgInner_inv _ _ _ _ _ _ _ _ _ hinv
      (lt_of_le_of_ne (vdot_self_nonneg st.d) (Ne.symm h1)) h4

/-- The SCG driver preserves the SCG invariant. -/
lemma scgRun_inv (f : List ℚ → ℚ) (fp : List ℚ → List ℚ) (sigmas : ℕ → ℚ)
    (xt ft gt : Option ℚ) (mf : ℕ) (fuel : ℕ) :
    ∀ (iter : ℕ) (st : SCGState), SCGInv st →
      SCGInv (scgRun f fp sigmas xt ft gt mf fuel iter st) := by
  induction fuel with
  | zero =>
    intro iter st h
    unfold scgRun
    split_ifs with h1
    · exact h
    · exact ⟨h.1, h.2.1, h.2.2.1, h.2.2.2⟩
  | succ n ih =>
    intro iter st h
    unfold scgRun
    split_ifs with h1
    · exact h
    · dsimp only
      apply ih
      split_ifs with h2
      · have hs := scgStep_inv f fp (sigmas iter) xt ft gt st h
        exact ⟨hs.1, hs.2.1, hs.2.2.1, hs.2.2.2⟩
      · exact scgStep_inv f fp (sigmas iter) xt ft gt st h

/-- The trace returned by an SCG run is non-increasing. -/
lemma SCG_trace_chain (f : List ℚ → ℚ) (fp : List ℚ → List ℚ) (sigmas : ℕ → ℚ)
    (x0 : List ℚ) (mi mf : ℕ) (xt ft gt : Option ℚ) :
    List.Chain' (fun a b => b ≤ a) (SCG f fp sigmas x0 mi mf xt ft gt).2.1 := by
  have h0 : SCGInv
      { x := x0, f0 := f x0, g := fp x0, d := vneg (fp x0), lam := 1, lamBar := 0,
        kappaRaw := 0, success := true, nsuccess := 0, trace := [f x0], nevals := 2,
        status := none } :=
    ⟨one_pos, by simp, rfl, List.chain'_singleton _⟩
  exact (scgRun_inv f fp sigmas xt ft gt mf mi 0 _ h0).2.2.2

end Lemmas

/-- C1: the claim reads: for every adapter construction, the stored
function-evaluation budget `max_f_eval` equals the caller-supplied
`max_f_eval` argument (default 10000) and is what is passed to the backend
as its maximum-function-evaluations option.  The code instead stores
`int(max_iters)` into `self.max_f_eval` (ignoring the `max_f_eval`
argument), so with the default arguments the stored budget is 1000, not
10000; `opt_lbfgsb.opt` moreover passes `self.max_iters` as `maxfun`. -/
theorem max_f_eval_stores_max_iters :
    (∀ x m mo mf mi ft gt xt bf,
        (Optimizer.init x m mo mf mi ft gt xt bf).max_f_eval = pyInt mi) ∧
    (Optimizer.init [0] false none 10000 1000 none none none none).max_f_eval = 1000 ∧
    (Optimizer.init [0] false none 10000 1000 none none none none).max_f_eval ≠ 10000 := by
  refine ⟨fun x m mo mf mi ft gt xt bf => rfl, ?_, ?_⟩
  · show pyInt 1000 = 1000
    norm_num [pyInt]
  · show pyInt 1000 ≠ 10000
    norm_num [pyInt]

/-- C9: `Optimizer.__init__` stores `self.messages = False` regardless of the
caller-supplied `messages` argument, so no variant enables backend progress
output. -/
theorem messages_always_false :
    ∀ x m mo mf mi ft gt xt bf,
      (Optimizer.init x m mo mf mi ft gt xt bf).messages = false :=
  fun _ _ _ _ _ _ _ _ _ => rfl

/-- C4: registry lookup succeeds exactly when the query is contained,
case-insensitively, as a substring of some registered key; it returns the
first such key's variant; and `LBFGSB` / `lbfgsb` resolve to the same
variant. -/
theorem get_optimizer_substring_lookup :
    (∀ q : String, (get_optimizer q).isOk = true ↔
        ∃ kv ∈ optimizers, pyFindContains (strLower kv.1) (strLower q) = true) ∧
    (∀ (q : String) (l₁ l₂ : List (String × OptKind)) (kv : String × OptKind),
        optimizers = l₁ ++ kv :: l₂ →
        pyFindContains (strLower kv.1) (strLower q) = true →
        (∀ kv₂ ∈ l₁, pyFindContains (strLower kv₂.1) (strLower q) = false) →
        get_optimizer q = Except.ok kv.2) ∧
    get_optimizer "LBFGSB" = Except.ok OptKind.opt_lbfgsb ∧
    get_optimizer "lbfgsb" = Except.ok OptKind.opt_lbfgsb := by
  refine ⟨?_, ?_, by rfl, by rfl⟩
  · intro q
    unfold get_optimizer
    constructor
    · intro h
      match hf : optimizers.find? (fun kv => pyFindContains (strLower kv.1) (strLower q)) with
      | some kv =>
        exact ⟨kv, List.mem_of_find?_eq_some hf, by simpa using List.find?_some hf⟩
      | none => rw [hf] at h; simp [Except.isOk, Except.toBool] at h
    · rintro ⟨kv, hmem, hp⟩
      match hf : optimizers.find? (fun kv => pyFindContains (strLower kv.1) (strLower q)) with
      | some kv₂ => rw [hf]; rfl
      | none =>
        have := List.find?_eq_none.mp hf kv hmem
        simp [hp] at this
  · intro q l₁ l₂ kv heq hkv hprev
    unfold get_optimizer
    rw [heq, find?_append_first _ l₁ l₂ kv hkv hprev]

/-- Witness for C4: instantiates the first-match clause at the query
`lbfgsb`, whose first (and only) containing key is the third entry. -/
theorem get_optimizer_substring_lookup_witness :
    get_optimizer "lbfgsb" = Except.ok (("lbfgsb", OptKind.opt_lbfgsb) : String × OptKind).2 :=
  get_optimizer_substring_lookup.2.1 "lbfgsb"
    [("fmin_tnc", OptKind.opt_tnc), ("simplex", OptKind.opt_simplex)]
    [("scg", OptKind.opt_SCG), ("adadelta", OptKind.Opt_Adadelta)]
    ("lbfgsb", OptKind.opt_lbfgsb) (by decide) (by decide) (by decide)

/-- C8: when no registered key contains the query, `get_optimizer` raises
`KeyError` rather than returning a variant; in particular for
`doesnotexist`. -/
theorem get_optimizer_no_match_raises :
    (∀ q : String,
        (∀ kv ∈ optimizers, pyFindContains (strLower kv.1) (strLower q) = false) →
        get_optimizer q =
          Except.error (PyError.keyError ("No optimizer was found matching the name: " ++ q))) ∧
    get_optimizer "doesnotexist" =
      Except.error (PyError.keyError "No optimizer was found matching the name: doesnotexist") := by
  constructor
  · intro q h
    unfold get_optimizer
    rw [List.find?_eq_none.mpr (fun kv hm => by simp [h kv hm])]
  · rfl

/-- Witness for C8: applies the no-match clause at `doesnotexist`. -/
theorem get_optimizer_no_match_raises_witness :
    get_optimizer "doesnotexist" =
      Except.error (PyError.keyError ("No optimizer was found matching the name: " ++ "doesnotexist")) :=
  get_optimizer_no_match_raises.1 "doesnotexist" (by decide)

/-- C2: in the SCG minimizer (modelled from the spec, as `scg.py` is not
among the sources), every accepted step leaves the objective value
non-increasing (and equal to the objective at the new point), the parameter
vector is never updated on a rejected step, and the recorded trace of
objective values of a whole run is monotonically non-increasing.  The
`0 < lam` hypothesis is the regularization invariant holding at every
reachable state (`SCGInv`, established for runs by `scgRun_inv` from the
initial `lambda = 1`). -/
theorem scg_acceptance_and_trace_monotone :
    (∀ (f : List ℚ → ℚ) (fp : List ℚ → List ℚ) (sigma : ℚ) (xt ft gt : Option ℚ)
       (st : SCGState), 0 < st.lam →
        (scgStep f fp sigma xt ft gt st).2 = StepTag.accepted →
        ((scgStep f fp sigma xt ft gt st).1).f0 ≤ st.f0 ∧
        ((scgStep f fp sigma xt ft gt st).1).f0 =
          f (((scgStep f fp sigma xt ft gt st).1).x)) ∧
    (∀ (f : List ℚ → ℚ) (fp : List ℚ → List ℚ) (sigma : ℚ) (xt ft gt : Option ℚ)
       (st : SCGState),
        (scgStep f fp sigma xt ft gt st).2 = StepTag.rejected →
        ((scgStep f fp sigma xt ft gt st).1).x = st.x) ∧
    (∀ (f : List ℚ → ℚ) (fp : List ℚ → List ℚ) (sigmas : ℕ → ℚ) (x0 : List ℚ)
       (mi mf : ℕ) (xt ft gt : Option ℚ),
        List.Chain' (fun a b => b ≤ a) (SCG f fp sigmas x0 mi mf xt ft gt).2.1) :=
  ⟨fun f fp sigma xt ft gt st hlam h =>
    ⟨scgStep_accepted_le f fp sigma xt ft gt st hlam h,
     scgStep_accepted_fx f fp sigma xt ft gt st h⟩,
   scgStep_rejected_x, SCG_trace_chain⟩

/-- Witness for C2: a concrete accepted step (quadratic objective from
`[1]`, whose step lands in the minimum) and a concrete rejected step (an
objective larger than the stored value, forcing a negative comparison
ratio). -/
theorem scg_acceptance_and_trace_monotone_witness :
    (((scgStep sampleF sampleFp 1 none none none sampleAccState).1).f0 ≤ sampleAccState.f0 ∧
     ((scgStep sampleF sampleFp 1 none none none sampleAccState).1).f0 =
       sampleF (((scgStep sampleF sampleFp 1 none none none sampleAccState).1).x)) ∧
    ((scgStep sampleRejF sampleRejFp 1 none none none sampleRejState).1).x = sampleRejState.x :=
  ⟨scg_acceptance_and_trace_monotone.1 sampleF sampleFp 1 none none none sampleAccState
     (by norm_num [sampleAccState])
     (by norm_num [scgStep, scgStepK, scgInner, scgTrial, scgAccept, scgTolHit,
                   vdot, vadd, vsub, vsmul, vneg, sampleF, sampleFp, sampleAccState]),
   scg_acceptance_and_trace_monotone.2.1 sampleRejF sampleRejFp 1 none none none sampleRejState
     (by norm_num [scgStep, scgStepK, scgInner, scgTrial, scgAccept, scgTolHit,
                   vdot, vadd, vsub, vsmul, vneg, sampleRejF, sampleRejFp, sampleRejState])⟩

/-- C5: invoking the L-BFGS-B or SCG adapter entry point without the
gradient callback it requires (`f_fp` for L-BFGS-B, `fp` — and `f` — for
SCG) fails on the assert before any backend call: the result is a constant
independent of the backend argument. -/
theorem missing_gradient_asserts_before_backend :
    (∀ s backend, opt_lbfgsb_opt s none backend =
        ([], Except.error (PyError.assertionError "BFGS requires f_fp"))) ∧
    (∀ s fv scgFun, opt_SCG_opt s (some fv) none scgFun =
        Except.error (PyError.assertionError "assert not fp is None")) ∧
    (∀ s fp scgFun, opt_SCG_opt s none fp scgFun =
        Except.error (PyError.assertionError "assert not f is None")) :=
  ⟨fun s backend => rfl, fun s fv scgFun => rfl, fun s fp scgFun => rfl⟩

/-- C6: a tolerance the chosen backend does not support (`xtol` or `ftol`
for L-BFGS-B, `gtol` for simplex) does not make the run fail: the warning
line is printed, and apart from the stored configuration field itself the
run is identical to the run without that tolerance — in particular the
backend is still invoked, with the same remaining options. -/
theorem unsupported_tolerance_warned_and_ignored :
    (∀ (s : Optimizer) (t : ℚ) (ffp : List ℚ → ℚ × List ℚ)
       (backend : (List ℚ → ℚ × List ℚ) → List ℚ → ℤ → ℤ → OptDict → LbfgsbResult),
        Except.map (fun st => { st with xtol := none })
            (opt_lbfgsb_opt { s with xtol := some t } (some ffp) backend).2 =
          Except.map (fun st => { st with xtol := none })
            (opt_lbfgsb_opt { s with xtol := none } (some ffp) backend).2 ∧
        "WARNING: l-bfgs-b has no xtol arg, so it is ignored" ∈
          (opt_lbfgsb_opt { s with xtol := some t } (some ffp) backend).1) ∧
    (∀ (s : Optimizer) (t : ℚ) (ffp : List ℚ → ℚ × List ℚ)
       (backend : (List ℚ → ℚ × List ℚ) → List ℚ → ℤ → ℤ → OptDict → LbfgsbResult),
        Except.map (fun st => { st with ftol := none })
            (opt_lbfgsb_opt { s with ftol := some t } (some ffp) backend).2 =
          Except.map (fun st => { st with ftol := none })
            (opt_lbfgsb_opt { s with ftol := none } (some ffp) backend).2 ∧
        "WARNING: l-bfgs-b has no ftol arg, so it is ignored" ∈
          (opt_lbfgsb_opt { s with ftol := some t } (some ffp) backend).1) ∧
    (∀ (s : Optimizer) (t : ℚ) (f : Option (List ℚ → ℚ))
       (backend : Option (List ℚ → ℚ) → List ℚ → Bool → ℤ → OptDict → SimplexResult),
        Except.map (fun st => { st with gtol := none })
            (opt_simplex_opt { s with gtol := some t } f backend).2 =
          Except.map (fun st => { st with gtol := none })
            (opt_simplex_opt { s with gtol := none } f backend).2 ∧
        "WARNING: simplex has no gtol arg, so it is ignored" ∈
          (opt_simplex_opt { s with gtol := some t } f backend).1) := by
  refine ⟨?_, ?_, ?_⟩
  · intro s t ffp backend
    simp only [opt_lbfgsb_opt]
    cases hp : pyIndex lbfgsb_rcstrings
        ((backend ffp s.x_init (if s.messages then (1:ℤ) else -1) s.max_iters
          { xtol := none, ftol := none, pgtol := s.gtol, factr := s.bfgs_factor }).warnflag) with
    | none => exact ⟨by simp [hp], by simp [hp]⟩
    | some st => exact ⟨by simp only [hp, Except.map], by simp [hp]⟩
  · intro s t ffp backend
    simp only [opt_lbfgsb_opt]
    cases hp : pyIndex lbfgsb_rcstrings
        ((backend ffp s.x_init (if s.messages then (1:ℤ) else -1) s.max_iters
          { xtol := none, ftol := none, pgtol := s.gtol, factr := s.bfgs_factor }).warnflag) with
    | none => exact ⟨by simp [hp], by simp [hp]⟩
    | some st => exact ⟨by simp only [hp, Except.map], by simp [hp]⟩
  · intro s t f backend
    simp only [opt_simplex_opt]
    cases hp : pyIndex simplex_statuses
        ((backend f s.x_init s.messages s.max_f_eval
          { xtol := s.xtol, ftol := s.ftol, pgtol := none, factr := none }).warnflag) with
    | none => exact ⟨by simp [hp], by simp [hp]⟩
    | some st => exact ⟨by simp only [hp, Except.map], by simp [hp]⟩

/-- C7: whenever the TNC or L-BFGS-B adapter returns successfully, the
reported `f_opt` is the caller's `f_fp` evaluated once more at the returned
`x_opt` (not a backend-reported value — indeed the backend result types
carry no objective value that the adapter would consult for `f_opt`). -/
theorem tnc_lbfgsb_fopt_recomputed :
    (∀ (s : Optimizer) (ffp : List ℚ → ℚ × List ℚ)
       (backend : (List ℚ → ℚ × List ℚ) → List ℚ → Bool → ℤ → OptDict → TncResult)
       (s2 : Optimizer),
        opt_tnc_opt s (some ffp) backend = Except.ok s2 →
        ∃ x, s2.x_opt = some x ∧ s2.f_opt = some (ffp x).1) ∧
    (∀ (s : Optimizer) (ffp : List ℚ → ℚ × List ℚ)
       (backend : (List ℚ → ℚ × List ℚ) → List ℚ → ℤ → ℤ → OptDict → LbfgsbResult)
       (s2 : Optimizer),
        (opt_lbfgsb_opt s (some ffp) backend).2 = Except.ok s2 →
        ∃ x, s2.x_opt = some x ∧ s2.f_opt = some (ffp x).1) := by
  constructor
  · intro s ffp backend s2 h
    simp only [opt_tnc_opt] at h
    cases hp : pyIndex tnc_rcstrings
        ((backend ffp s.x_init s.messages s.max_f_eval
          { xtol := s.xtol, ftol := s.ftol, pgtol := s.gtol, factr := none }).rc) with
    | none => rw [hp] at h; exact absurd h (by simp)
    | some st =>
      rw [hp] at h
      dsimp only at h
      injection h with h2
      subst h2
      exact ⟨_, rfl, rfl⟩
  · intro s ffp backend s2 h
    simp only [opt_lbfgsb_opt] at h
    cases hp : pyIndex lbfgsb_rcstrings
        ((backend ffp s.x_init (if s.messages then (1:ℤ) else -1) s.max_iters
          { xtol := none, ftol := none, pgtol := s.gtol, factr := s.bfgs_factor }).warnflag) with
    | none => rw [hp] at h; exact absurd h (by simp)
    | some st =>
      rw [hp] at h
      dsimp only at h
      injection h with h2
      subst h2
      exact ⟨_, rfl, rfl⟩

/-- Witness for C7: concrete runs of both adapters with in-range status
codes. -/
theorem tnc_lbfgsb_fopt_recomputed_witness :
    (∃ x, ({ sampleOpt with
              x_opt := some [3], f_opt := some (sampleFfp [3]).1,
              funct_eval := some 7, status := some "Converged" } : Optimizer).x_opt = some x ∧
          ({ sampleOpt with
              x_opt := some [3], f_opt := some (sampleFfp [3]).1,
              funct_eval := some 7, status := some "Converged" } : Optimizer).f_opt =
            some (sampleFfp x).1) ∧
    (∃ x, ({ sampleOpt with
              x_opt := some [2], f_opt := some (sampleFfp [2]).1,
              funct_eval := some 5, status := some "Converged" } : Optimizer).x_opt = some x ∧
          ({ sampleOpt with
              x_opt := some [2], f_opt := some (sampleFfp [2]).1,
              funct_eval := some 5, status := some "Converged" } : Optimizer).f_opt =
            some (sampleFfp x).1) :=
  ⟨tnc_lbfgsb_fopt_recomputed.1 sampleOpt sampleFfp sampleTncBackend _ rfl,
   tnc_lbfgsb_fopt_recomputed.2 sampleOpt sampleFfp sampleLbfgsbBackend _ rfl⟩

/-- Counterexample for C3: the backend return code -1 is outside the status
table range `[0, 6)`, yet `opt_tnc.opt` does not fail: Python negative list
indexing silently maps it to the last entry, `Function is constant`. -/
theorem tnc_negative_code_silently_mapped :
    Except.map Optimizer.status (opt_tnc_opt sampleOpt (some sampleFfp) tncNegBackend) =
      Except.ok (some "Function is constant") := by rfl

/-- C3 (amended): a backend status code outside `[-len, len)` of the
per-backend status table makes the adapter raise `IndexError`; codes in
`[-len, 0)` are instead silently mapped from the end of the table per
Python indexing (see `tnc_negative_code_silently_mapped`). -/
theorem out_of_range_code_raises_indexerror :
    (∀ (s : Optimizer) (ffp : List ℚ → ℚ × List ℚ)
       (backend : (List ℚ → ℚ × List ℚ) → List ℚ → Bool → ℤ → OptDict → TncResult),
        ((backend ffp s.x_init s.messages s.max_f_eval
            { xtol := s.xtol, ftol := s.ftol, pgtol := s.gtol, factr := none }).rc < -6 ∨
         6 ≤ (backend ffp s.x_init s.messages s.max_f_eval
            { xtol := s.xtol, ftol := s.ftol, pgtol := s.gtol, factr := none }).rc) →
        opt_tnc_opt s (some ffp) backend = Except.error PyError.indexError) ∧
    (∀ (s : Optimizer) (ffp : List ℚ → ℚ × List ℚ)
       (backend : (List ℚ → ℚ × List ℚ) → List ℚ → ℤ → ℤ → OptDict → LbfgsbResult),
        ((backend ffp s.x_init (if s.messages then (1:ℤ) else -1) s.max_iters
            { xtol := none, ftol := none, pgtol := s.gtol, factr := s.bfgs_factor }).warnflag < -3 ∨
         3 ≤ (backend ffp s.x_init (if s.messages then (1:ℤ) else -1) s.max_iters
            { xtol := none, ftol := none, pgtol := s.gtol, factr := s.bfgs_factor }).warnflag) →
        (opt_lbfgsb_opt s (some ffp) backend).2 = Except.error PyError.indexError) ∧
    (∀ (s : Optimizer) (f : Option (List ℚ → ℚ))
       (backend : Option (List ℚ → ℚ) → List ℚ → Bool → ℤ → OptDict → SimplexResult),
        ((backend f s.x_init s.messages s.max_f_eval
            { xtol := s.xtol, ftol := s.ftol, pgtol := none, factr := none }).warnflag < -3 ∨
         3 ≤ (backend f s.x_init s.messages s.max_f_eval
            { xtol := s.xtol, ftol := s.ftol, pgtol := none, factr := none }).warnflag) →
        (opt_simplex_opt s f backend).2 = Except.error PyError.indexError) := by
  refine ⟨?_, ?_, ?_⟩
  · intro s ffp backend h
    simp only [opt_tnc_opt]
    rw [pyIndex_eq_none_of_out_of_range _ _ (by simpa [tnc_rcstrings] using h)]
  · intro s ffp backend h
    simp only [opt_lbfgsb_opt]
    rw [pyIndex_eq_none_of_out_of_range _ _ (by simpa [lbfgsb_rcstrings] using h)]
  · intro s f backend h
    simp only [opt_simplex_opt]
    rw [pyIndex_eq_none_of_out_of_range _ _ (by simpa [simplex_statuses] using h)]

/-- Witness for the amended C3: out-of-range codes 6 (TNC), 3 (L-BFGS-B)
and -4 (simplex) all raise `IndexError`. -/
theorem out_of_range_code_raises_indexerror_witness :
    opt_tnc_opt sampleOpt (some sampleFfp) tncOutBackend = Except.error PyError.indexError ∧
    (opt_lbfgsb_opt sampleOpt (some sampleFfp) lbfgsbOutBackend).2 =
      Except.error PyError.indexError ∧
    (opt_simplex_opt sampleOpt (some sampleF) simplexOutBackend).2 =
      Except.error PyError.indexError :=
  ⟨out_of_range_code_raises_indexerror.1 sampleOpt sampleFfp tncOutBackend
     (Or.inr (by norm_num [tncOutBackend])),
   out_of_range_code_raises_indexerror.2.1 sampleOpt sampleFfp lbfgsbOutBackend
     (Or.inr (by norm_num [lbfgsbOutBackend])),
   out_of_range_code_raises_indexerror.2.2 sampleOpt (some sampleF) simplexOutBackend
     (Or.inl (by norm_num [simplexOutBackend]))⟩

/-- C10: a completed `Opt_Adadelta.opt` run assigns only `x_opt` and
`status` on top of the freshly initialized state; `f_opt`, `funct_eval` and
`trace` keep their initial `None`, and therefore `__str__` cannot be
rendered (its `%.3f` / `%d` formatting of `None` raises). -/
theorem adadelta_assigns_only_xopt_status :
    ∀ (x : List ℚ) (m : Bool) (mo : Option Unit) (mf mi : ℚ) (ft gt xt bf : Option ℚ)
      (fpv : List ℚ → List ℚ) (wrt : List ℚ),
      Opt_Adadelta_opt (Optimizer.init x m mo mf mi ft gt xt bf) (some fpv) wrt =
        Except.ok { Optimizer.init x m mo mf mi ft gt xt bf with
                    x_opt := some wrt,
                    status := some "maximum number of function evaluations exceeded " } ∧
      ({ Optimizer.init x m mo mf mi ft gt xt bf with
         x_opt := some wrt,
         status := some "maximum number of function evaluations exceeded " } : Optimizer).f_opt = none ∧
      ({ Optimizer.init x m mo mf mi ft gt xt bf with
         x_opt := some wrt,
         status := some "maximum number of function evaluations exceeded " } : Optimizer).funct_eval = none ∧
      ({ Optimizer.init x m mo mf mi ft gt xt bf with
         x_opt := some wrt,
         status := some "maximum number of function evaluations exceeded " } : Optimizer).trace = none ∧
      Optimizer.str { Optimizer.init x m mo mf mi ft gt xt bf with
                      x_opt := some wrt,
                      status := some "maximum number of function evaluations exceeded " } = none :=
  fun x m mo mf mi ft gt xt bf fpv wrt => ⟨rfl, rfl, rfl, rfl, rfl⟩
